import Mathlib

/-!
Verification of the BLE GATT interactive client (`app.py`) and the one-shot
battery reader (`read_battery.py`).

The Python sources are shallowly embedded: strings are Lean `String`s, byte
strings are `List Nat` (each element < 256), the asyncio suspension points
(scan, operator input, GATT I/O) are modelled as explicit effect lists, and
the global `shutdown_event` is a `Bool` observed at each loop boundary.
-/

namespace BleGatt

/-- Whitespace, as recognised by Python `str.split()` with no argument. -/
def isSpaceChar (c : Char) : Bool :=
  c = ' ' || c = '\t' || c = '\n' || c = '\r'

/-- Worker for `pySplit`: accumulates the current word (reversed) in `cur`. -/
def splitWSAux : List Char → List Char → List String
  | [], cur => if cur.isEmpty then [] else [String.mk cur.reverse]
  | c :: cs, cur =>
    if isSpaceChar c then
      if cur.isEmpty then splitWSAux cs []
      else String.mk cur.reverse :: splitWSAux cs []
    else splitWSAux cs (c :: cur)

/-- Python `str.split()` with no argument: split on runs of whitespace,
dropping empty tokens.  Used for `cmd_input.split()` in `app.py`. -/
def pySplit (s : String) : List String :=
  splitWSAux s.data []

/-- Value of a nonempty all-decimal-digit character list, else `none`. -/
def digitsToNat (cs : List Char) : Option Nat :=
  if cs ≠ [] ∧ cs.all (fun c => c.isDigit) then
    some (cs.foldl (fun a c => a * 10 + (c.toNat - 48)) 0)
  else none

/-- Python `int(str)`: strip surrounding whitespace, optional sign, decimal
digits; raises `ValueError` (here `none`) otherwise. -/
def pyInt (s : String) : Option Int :=
  let cs := (s.data.dropWhile isSpaceChar).reverse.dropWhile isSpaceChar |>.reverse
  match cs with
  | '+' :: rest => (digitsToNat rest).map Int.ofNat
  | '-' :: rest => (digitsToNat rest).map (fun n => -(n : Int))
  | rest => (digitsToNat rest).map Int.ofNat

/-- ASCII lower-casing of one character, as Python `str.lower()` does on the
ASCII range (the only range the claims exercise). -/
def asciiLower (c : Char) : Char :=
  match c with
  | 'A' => 'a' | 'B' => 'b' | 'C' => 'c' | 'D' => 'd' | 'E' => 'e'
  | 'F' => 'f' | 'G' => 'g' | 'H' => 'h' | 'I' => 'i' | 'J' => 'j'
  | 'K' => 'k' | 'L' => 'l' | 'M' => 'm' | 'N' => 'n' | 'O' => 'o'
  | 'P' => 'p' | 'Q' => 'q' | 'R' => 'r' | 'S' => 's' | 'T' => 't'
  | 'U' => 'u' | 'V' => 'v' | 'W' => 'w' | 'X' => 'x' | 'Y' => 'y'
  | 'Z' => 'z'
  | other => other

/-- Python `str.lower()`. -/
def pyLower (s : String) : String :=
  String.mk (s.data.map asciiLower)

/-- Python `str.strip()` with no argument. -/
def pyStrip (s : String) : String :=
  String.mk ((s.data.dropWhile isSpaceChar).reverse.dropWhile isSpaceChar |>.reverse)

/-- Python `s.startswith(p)`. -/
def pyStartswith (s p : String) : Bool :=
  p.data.isPrefixOf s.data

/-- Value of one hexadecimal digit (either case), else `none`. -/
def hexVal (c : Char) : Option Nat :=
  if '0' ≤ c ∧ c ≤ '9' then some (c.toNat - 48)
  else if 'a' ≤ c ∧ c ≤ 'f' then some (c.toNat - 87)
  else if 'A' ≤ c ∧ c ≤ 'F' then some (c.toNat - 55)
  else none

/-- Python `bytearray.fromhex` on a whitespace-free string (the only way the
program calls it: the argument is a single `split()` token): pairs of hex
digits; an odd-length or non-hex string raises `ValueError` (here `none`). -/
def fromhex : List Char → Option (List Nat)
  | [] => some []
  | [_] => none
  | c1 :: c2 :: rest =>
    match hexVal c1, hexVal c2, fromhex rest with
    | some h, some l, some bs => some ((h * 16 + l) :: bs)
    | _, _, _ => none

/-- Lower-case hexadecimal digit for a value below 16. -/
def hexDigit (k : Nat) : Char :=
  if k < 10 then Char.ofNat (48 + k) else Char.ofNat (87 + k)

/-- Two-digit-per-byte hexadecimal spelling of a byte list. -/
def toHexChars (bs : List Nat) : List Char :=
  bs.flatMap (fun b => [hexDigit (b / 16), hexDigit (b % 16)])

/-- UTF-8 encoding of one code point. -/
def utf8EncodeChar (c : Char) : List Nat :=
  let n := c.toNat
  if n < 128 then [n]
  else if n < 2048 then [192 + n / 64, 128 + n % 64]
  else if n < 65536 then [224 + n / 4096, 128 + n / 64 % 64, 128 + n % 64]
  else [240 + n / 262144, 128 + n / 4096 % 64, 128 + n / 64 % 64, 128 + n % 64]

/-- UTF-8 encoding of a character list. -/
def utf8EncodeList (l : List Char) : List Nat :=
  (l.map utf8EncodeChar).flatten

/-- Python `str.encode('utf-8')`. -/
def utf8Encode (s : String) : List Nat :=
  utf8EncodeList s.data

/-! ## Data model (bleak-facing objects) -/

/-- A GATT characteristic as `app.py` sees it: `char.uuid` and
`char.properties` (a list of property-name strings). -/
structure BChar where
  uuid : String
  properties : List String
deriving DecidableEq

/-- A GATT service: `service.uuid` and `service.characteristics`. -/
structure BService where
  uuid : String
  characteristics : List BChar
deriving DecidableEq

/-- A discovered BLE device: `d.name` (may be `None`), `d.address`,
`d.details`. -/
structure BDevice where
  name : Option String
  address : String
  details : String
deriving DecidableEq

/-- The per-characteristic test in `app.py` line 76:
`any(p in c.properties for p in ['read', 'write', 'write-without-response'])`. -/
def isRW (c : BChar) : Bool :=
  ["read", "write", "write-without-response"].any
    (fun p => c.properties.contains p)

/-! ## Characteristic catalog builder (`app.py` lines 70-83) -/

/-- One line printed while walking the service tree. -/
inductive CatPrint where
  | svcHeader (uuid : String)
  | charLine (ordinal : Nat) (uuid : String) (props : List String)
deriving DecidableEq

/-- The builder's running state: `current_char_index`, `char_map` (a dict with
strictly increasing fresh integer keys, embedded as an association list in
insertion order), and the lines printed so far. -/
structure CatState where
  idx : Nat
  charMap : List (Nat × BChar)
  prints : List CatPrint
deriving DecidableEq

/-- Body of the inner `for char in service.characteristics` loop
(`app.py` lines 79-83): print the line, bind the current ordinal, increment. -/
def catChar (st : CatState) (c : BChar) : CatState :=
  { idx := st.idx + 1,
    charMap := st.charMap ++ [(st.idx, c)],
    prints := st.prints ++ [CatPrint.charLine st.idx c.uuid c.properties] }

/-- The display condition of `app.py` line 77: `if rw_chars or verbose`
(`rw_chars` is the `isRW` filter of the service's characteristics, and a
Python list is truthy iff nonempty). -/
def passFilter (verbose : Bool) (svc : BService) : Bool :=
  !(svc.characteristics.filter (fun c => isRW c)).isEmpty || verbose

/-- Body of the outer `for service in client.services` loop
(`app.py` lines 74-83). -/
def catService (verbose : Bool) (st : CatState) (svc : BService) : CatState :=
  if passFilter verbose svc then
    svc.characteristics.foldl catChar
      { st with prints := st.prints ++ [CatPrint.svcHeader svc.uuid] }
  else st

/-- The whole catalog-building pass: `char_map = {}`,
`current_char_index = 1`, then the service loop. -/
def buildCatalog (services : List BService) (verbose : Bool) : CatState :=
  services.foldl (catService verbose) ⟨1, [], []⟩

/-- The characteristics bound in the catalog, in ordinal order. -/
def catalogChars (services : List BService) (verbose : Bool) : List BChar :=
  (buildCatalog services verbose).charMap.map Prod.snd

/-- `char_map.get(char_num)` (`app.py` line 101): dictionary lookup with a
Python-int key. -/
def charMapGet (m : List (Nat × BChar)) (k : Int) : Option BChar :=
  (m.find? (fun p => (p.1 : Int) == k)).map Prod.snd

/-- The characteristics of the services that pass the display filter, in
traversal order: what §4.5 of the spec calls the displayed subset. -/
def displayedChars (verbose : Bool) (services : List BService) : List BChar :=
  (services.filter (fun s => passFilter verbose s)).flatMap
    (fun s => s.characteristics)

/-- The `(ordinal, uuid, properties)` payloads of the per-characteristic
lines among a print list. -/
def charLineEntries (ps : List CatPrint) : List (Nat × String × List String) :=
  ps.filterMap (fun p =>
    match p with
    | CatPrint.charLine k u pr => some (k, u, pr)
    | _ => none)

/-! ## Command dispatcher (`app.py` lines 86-128) -/

/-- Observable actions of one dispatcher iteration.  `prompt` is the blocking
`input("> ")` suspension; `devRead`/`devWrite` are the GATT operations issued
to the peripheral; `printValue`/`printWrote` are the success reports (which
render their payloads; the rendering is irrelevant to every claim). -/
inductive Effect where
  | prompt
  | print (s : String)
  | printValue (v : List Nat)
  | printWrote (data : List Nat) (uuid : String)
  | devRead (uuid : String)
  | devWrite (uuid : String) (data : List Nat)
deriving DecidableEq

/-- How dispatching one line leaves the loop: continue to the next prompt,
`break` (the `quit` command), or an exception escaping the `while` loop. -/
inductive StepOutcome where
  | cont
  | brk
  | uncaught (msg : String)
deriving DecidableEq

/-- Results the peripheral gives to GATT operations: `Except.error` is a
raised `BleakError`/`Exception`. -/
structure DevOracle where
  readRes : String → Except String (List Nat)
  writeRes : String → List Nat → Except String Unit

/-- The `<value>` decoding of the `write` command (`app.py` lines 114-118):
a `0x`-prefixed token is hex-decoded, anything else UTF-8-encoded. -/
def parseWriteValue (v : String) : Option (List Nat) :=
  if pyStartswith v "0x" then fromhex (v.data.drop 2)
  else some (utf8Encode v)

/-- Dispatch of one already-read input line (`app.py` lines 88-128).
`cmd, *params = cmd_input.split()` raises an uncaught `ValueError` on an
empty token list; inside the `read`/`write` branch, `ValueError` and any
other `Exception` are caught and turned into one-line messages. -/
def dispatchStep (cm : List (Nat × BChar)) (orc : DevOracle) (line : String) :
    List Effect × StepOutcome :=
  match pySplit line with
  | [] =>
    ([], StepOutcome.uncaught
      "not enough values to unpack (expected at least 1, got 0)")
  | cmd :: params =>
    if cmd = "help" then
      ([Effect.print "Commands: read <num> | write <num> <value> | list | quit",
        Effect.print "  <value> can be text (e.g., 'hello') or hex (e.g., '0x01af')"],
       StepOutcome.cont)
    else if cmd = "list" then
      ([Effect.print "Use the numbers listed above to interact with characteristics."],
       StepOutcome.cont)
    else if cmd = "quit" then ([], StepOutcome.brk)
    else if cmd = "read" ∨ cmd = "write" then
      match params with
      | [] =>
        ([Effect.print "An error occurred: list index out of range"],
         StepOutcome.cont)
      | p0 :: rest =>
        match pyInt p0 with
        | none => ([Effect.print "Invalid number."], StepOutcome.cont)
        | some charNum =>
          match charMapGet cm charNum with
          | none =>
            ([Effect.print "Invalid characteristic number."], StepOutcome.cont)
          | some c =>
            if cmd = "read" then
              match orc.readRes c.uuid with
              | Except.ok v =>
                ([Effect.devRead c.uuid, Effect.printValue v], StepOutcome.cont)
              | Except.error e =>
                ([Effect.devRead c.uuid,
                  Effect.print ("An error occurred: " ++ e)], StepOutcome.cont)
            else
              match rest.head? with
              | none =>
                ([Effect.print "Write command needs a value."], StepOutcome.cont)
              | some valStr =>
                match parseWriteValue valStr with
                | none => ([Effect.print "Invalid number."], StepOutcome.cont)
                | some data =>
                  match orc.writeRes c.uuid data with
                  | Except.ok _ =>
                    ([Effect.devWrite c.uuid data,
                      Effect.printWrote data c.uuid], StepOutcome.cont)
                  | Except.error e =>
                    ([Effect.devWrite c.uuid data,
                      Effect.print ("An error occurred: " ++ e)], StepOutcome.cont)
    else ([Effect.print "Unknown command. Type 'help'."], StepOutcome.cont)

/-- How the dispatcher loop ends over a finite trace. -/
inductive DispFinal where
  | pending
  | quit
  | crashed (msg : String)
  | ended
deriving DecidableEq

/-- The dispatcher loop (`app.py` line 86): each iteration record carries the
`client.is_connected` and `shutdown_event.is_set()` observations made at the
loop boundary, and the operator's line. -/
def runDispatch (cm : List (Nat × BChar)) (orc : DevOracle) :
    List (Bool × Bool × String) → List Effect × DispFinal
  | [] => ([], DispFinal.pending)
  | (conn, sd, line) :: rest =>
    if conn && !sd then
      let (es, out) := dispatchStep cm orc line
      match out with
      | StepOutcome.cont =>
        let (es2, r) := runDispatch cm orc rest
        (Effect.prompt :: es ++ es2, r)
      | StepOutcome.brk => (Effect.prompt :: es, DispFinal.quit)
      | StepOutcome.uncaught m => (Effect.prompt :: es, DispFinal.crashed m)
    else ([], DispFinal.ended)

/-- The uuids of the GATT operations among an effect list. -/
def devTargets (es : List Effect) : List String :=
  es.filterMap (fun e =>
    match e with
    | Effect.devRead u => some u
    | Effect.devWrite u _ => some u
    | _ => none)

/-- Whether an effect is a GATT write issued to the device. -/
def isDevWrite (e : Effect) : Bool :=
  match e with
  | Effect.devWrite _ _ => true
  | _ => false

/-- Whether an effect is a plain printed message. -/
def isPrint (e : Effect) : Bool :=
  match e with
  | Effect.print _ => true
  | _ => false

/-! ## Device selector (`app.py` lines 24-60) -/

/-- Python truthiness of `d.name`: neither `None` nor the empty string. -/
def nameTruthy : Option String → Bool
  | none => false
  | some s => !(s = "")

/-- `named_devices` (`app.py` line 30): the discovery result filtered to
devices with a truthy name. -/
def namedDevices (devices : List BDevice) : List BDevice :=
  devices.filter (fun d => nameTruthy d.name)

/-- Where one selection input leads (`app.py` lines 45-56). -/
inductive SelOutcome where
  | device (d : BDevice)
  | quitNone
  | rescan
  | retry (msg : String)
deriving DecidableEq

/-- Handling of one line at the selection prompt: `q` quits, `s` rescans, an
in-range integer selects, anything else prints an error and re-prompts. -/
def selStep (named : List BDevice) (sel : String) : SelOutcome :=
  if pyLower sel = "q" then SelOutcome.quitNone
  else if pyLower sel = "s" then SelOutcome.rescan
  else
    match pyInt sel with
    | none => SelOutcome.retry "Invalid input, please enter a number."
    | some i =>
      if h : 0 ≤ i ∧ i < (named.length : Int) then
        SelOutcome.device (named.get ⟨i.toNat, by omega⟩)
      else SelOutcome.retry "Invalid number, please try again."

/-- Observable actions of the selector. -/
inductive SelEffect where
  | print (s : String)
  | prompt
deriving DecidableEq

/-- How the selection loop ends over a finite trace.  `retNone` covers both
the `q` return and the fall-through `return None` after the `while` guard
observes the shutdown event. -/
inductive SelFinal where
  | dev (d : BDevice)
  | retNone
  | rescan
  | pending
deriving DecidableEq

/-- The selection loop (`app.py` lines 41-60): each iteration record carries
the `shutdown_event.is_set()` observation at the loop boundary and the
operator's line. -/
def runSelLoop (named : List BDevice) :
    List (Bool × String) → List SelEffect × SelFinal
  | [] => ([], SelFinal.pending)
  | (sd, sel) :: rest =>
    if sd then ([], SelFinal.retNone)
    else
      match selStep named sel with
      | SelOutcome.quitNone => ([SelEffect.prompt], SelFinal.retNone)
      | SelOutcome.rescan => ([SelEffect.prompt], SelFinal.rescan)
      | SelOutcome.device d => ([SelEffect.prompt], SelFinal.dev d)
      | SelOutcome.retry m =>
        let (es, r) := runSelLoop named rest
        (SelEffect.prompt :: SelEffect.print m :: es, r)

/-- The numbered menu (`app.py` lines 36-39): one line per named device, plus
a detail line in verbose mode. -/
def menuLines (named : List BDevice) (verbose : Bool) : List SelEffect :=
  named.enum.flatMap (fun p =>
    SelEffect.print ("  " ++ toString p.1 ++ ": " ++ p.2.name.getD "" ++
      " (" ++ p.2.address ++ ")") ::
    if verbose then [SelEffect.print ("     Details: " ++ p.2.details)] else [])

/-- The message printed when discovery yields no named device. -/
def noNamedMsg : String :=
  "No named devices found. Try again or check BLE device visibility."

/-- `select_device` (`app.py` lines 24-60) after one discovery scan
delivering `devices`: filter to named devices, return `None` at once when
none remain, otherwise print the menu and run the selection loop. -/
def selectDevice (devices : List BDevice) (verbose : Bool)
    (trace : List (Bool × String)) : List SelEffect × SelFinal :=
  let named := namedDevices devices
  if named.isEmpty then
    ([SelEffect.print "Scanning for devices...", SelEffect.print noNamedMsg],
     SelFinal.retNone)
  else
    let (es, r) := runSelLoop named trace
    (SelEffect.print "Scanning for devices..." ::
     SelEffect.print "Please select a device:" ::
     menuLines named verbose ++ es, r)

/-! ## Shutdown event and orchestrator (`app.py` lines 8-22, 137-156) -/

/-- `asyncio.Event.set()` on the embedded event state. -/
def eventSet (_ : Bool) : Bool := true

/-- `graceful_shutdown` line 14: `shutdown_event.set()`. -/
def gracefulShutdownSetsEvent (e : Bool) : Bool := eventSet e

/-- `main` line 152: `shutdown_event.set()` after the orchestrator loop. -/
def mainSetsEvent (e : Bool) : Bool := eventSet e

/-- Every mutation `app.py` performs on `shutdown_event` over a whole run
(there is no `clear()` call anywhere in the program). -/
def appEventOps : List (Bool → Bool) :=
  [gracefulShutdownSetsEvent, mainSetsEvent]

/-- One iteration of the orchestrator loop, as observed at its suspension
points: the flag at the top of the loop, what `select_device` returned, the
flag after the session ended, and the answer to the continue prompt. -/
structure MainRound where
  flagAtTop : Bool
  selDevice : Option BDevice
  flagAfterSession : Bool
  answer : String
deriving DecidableEq

/-- Suspensions started by the orchestrator loop. -/
inductive MainEffect where
  | selectCall
  | interactCall (d : BDevice)
  | askPrompt
deriving DecidableEq

/-- How the orchestrator loop ends over a finite trace. -/
inductive MainFinal where
  | done
  | pending
deriving DecidableEq

/-- The orchestrator loop (`app.py` lines 139-150): check the flag, select a
device (`None` breaks), run the session, and unless the flag is now set ask
whether to connect to another device (an answer other than `y` breaks). -/
def mainLoop : List MainRound → List MainEffect × MainFinal
  | [] => ([], MainFinal.pending)
  | r :: rest =>
    if r.flagAtTop then ([], MainFinal.done)
    else
      match r.selDevice with
      | none => ([MainEffect.selectCall], MainFinal.done)
      | some d =>
        if r.flagAfterSession then
          let (es, f) := mainLoop rest
          (MainEffect.selectCall :: MainEffect.interactCall d :: es, f)
        else if pyLower r.answer ≠ "y" then
          ([MainEffect.selectCall, MainEffect.interactCall d,
            MainEffect.askPrompt], MainFinal.done)
        else
          let (es, f) := mainLoop rest
          (MainEffect.selectCall :: MainEffect.interactCall d ::
           MainEffect.askPrompt :: es, f)

/-! ## Battery reader (`read_battery.py`) -/

/-- Observable actions of the battery tool. -/
inductive RBEffect where
  | print (s : String)
  | connectAttempt (address : Option String)
  | batteryRead
  | disconnectCall
  | cmdPrompt
deriving DecidableEq

/-- The `for d in devices` search of `get_address_from_name`
(`read_battery.py` lines 10-15): the first device whose name equals `name`
exactly (`d.name == name` is case-sensitive; a `None` name never equals a
string) wins; otherwise print `"Device not found"` and return `None`. -/
def rbScan (name : String) : List BDevice → List RBEffect × Option String
  | [] => ([RBEffect.print "Device not found"], none)
  | d :: ds =>
    if d.name = some name then
      ([RBEffect.print ("Found device: " ++ name ++ " @ " ++ d.address)],
       some d.address)
    else rbScan name ds

/-- `get_address_from_name` (`read_battery.py` lines 7-15). -/
def getAddressFromName (devices : List BDevice) (name : String) :
    List RBEffect × Option String :=
  let (es, r) := rbScan name devices
  (RBEffect.print ("Scanning for device named: " ++ name) :: es, r)

/-- What the transport does in one connect-read-disconnect iteration of the
battery tool's loop. -/
structure RBIter where
  connectErr : Option String
  isConnected : Bool
  batteryRes : Except String (List Nat)
  disconnectErr : Option String

/-- One body of the `while command != 'q'` loop
(`read_battery.py` lines 25-42): connect (`pair=True`), read the battery
level when connected, always attempt the disconnect in `finally`. -/
def rbBody (it : RBIter) (addr : Option String) : List RBEffect :=
  (RBEffect.connectAttempt addr ::
    (match it.connectErr with
     | some e => [RBEffect.print ("Connection failed: " ++ e)]
     | none =>
       if it.isConnected then
         RBEffect.batteryRead ::
         (match it.batteryRes with
          | Except.ok v =>
            [RBEffect.print ("Battery level: " ++ toString (v.headD 0) ++ "%")]
          | Except.error e =>
            [RBEffect.print ("Failed to read battery level: " ++ e)])
       else [RBEffect.print "Failed to connect to device."])) ++
  (RBEffect.disconnectCall ::
    (match it.disconnectErr with
     | some e => [RBEffect.print ("Disconnection error: " ++ e)]
     | none => []))

/-- The battery tool's command loop: run a body, then prompt; stop once the
stripped, lowered command is `q`. -/
def rbLoop (orc : Nat → RBIter) (addr : Option String) :
    Nat → List String → List RBEffect
  | k, [] => rbBody (orc k) addr
  | k, c :: rest =>
    rbBody (orc k) addr ++ RBEffect.cmdPrompt ::
      (if pyLower (pyStrip c) = "q" then [] else rbLoop orc addr (k + 1) rest)

/-- `main` of `read_battery.py` (lines 17-43): resolve `--name` through
discovery when no address was given, abort before any connection when the
resolution fails, otherwise run the connect-read-disconnect loop. -/
def rbMain (devices : List BDevice) (address : Option String)
    (name : Option String) (orc : Nat → RBIter) (cmds : List String) :
    List RBEffect :=
  if !(nameTruthy address) ∧ nameTruthy name then
    let (es, r) := getAddressFromName devices (name.getD "")
    match r with
    | none => es
    | some a => es ++ rbLoop orc (some a) 0 cmds
  else rbLoop orc address 0 cmds

/-- Whether a battery-tool effect is a connection attempt. -/
def isConnect (e : RBEffect) : Bool :=
  match e with
  | RBEffect.connectAttempt _ => true
  | _ => false

/-- The print-entry payload of one catalog binding. -/
def entryOf (q : Nat × BChar) : Nat × String × List String :=
  (q.1, q.2.uuid, q.2.properties)

/-! ## Concrete fixtures used by witnesses and counterexamples -/

/-- A readable (and notifying) characteristic. -/
def charR : BChar :=
  ⟨"0000aaaa-0000-1000-8000-00805f9b34fb", ["read", "notify"]⟩

/-- A notify-only characteristic: not readable, not writable. -/
def charN : BChar :=
  ⟨"0000bbbb-0000-1000-8000-00805f9b34fb", ["notify"]⟩

/-- A service with one readable and one notify-only characteristic. -/
def svcDemo : BService :=
  ⟨"0000a000-0000-1000-8000-00805f9b34fb", [charR, charN]⟩

/-- A service whose only characteristic is notify-only. -/
def svcNotifyOnly : BService :=
  ⟨"0000b000-0000-1000-8000-00805f9b34fb", [charN]⟩

/-- A transport that answers every GATT operation successfully. -/
def orcDemo : DevOracle :=
  ⟨fun _ => Except.ok [1], fun _ _ => Except.ok ()⟩

/-- A named discovered device. -/
def devA : BDevice := ⟨some "Thermo", "AA:BB", "detailsA"⟩

/-- Another named discovered device. -/
def devB : BDevice := ⟨some "Lock", "CC:DD", "detailsB"⟩

/-- An anonymous device (no advertised name). -/
def devAnon : BDevice := ⟨none, "EE:FF", "detailsC"⟩

/-- A device advertising an empty name. -/
def devEmptyName : BDevice := ⟨some "", "11:22", "detailsD"⟩

/-- A battery-tool transport whose connection always succeeds. -/
def rbIterDemo : Nat → RBIter :=
  fun _ => ⟨none, true, Except.ok [90], none⟩

/-! ## Catalog builder lemmas -/

lemma range1_append (s m n : Nat) :
    List.range' s m ++ List.range' (s + m) n = List.range' s (m + n) := by
  have h := List.range'_append s m n 1
  rw [Nat.one_mul] at h
  rw [h, Nat.add_comm]

lemma catChar_foldl (chars : List BChar) (st : CatState) :
    (chars.foldl catChar st).idx = st.idx + chars.length ∧
    (chars.foldl catChar st).charMap.map Prod.fst
      = st.charMap.map Prod.fst ++ List.range' st.idx chars.length ∧
    (chars.foldl catChar st).charMap.map Prod.snd
      = st.charMap.map Prod.snd ++ chars := by
  induction chars generalizing st with
  | nil => simp
  | cons c cs ih =>
    obtain ⟨h1, h2, h3⟩ := ih (catChar st c)
    rw [List.foldl_cons]
    refine ⟨by rw [h1]; simp [catChar]; omega, ?_, ?_⟩
    · rw [h2]
      simp only [catChar, List.map_append, List.append_assoc, List.map_cons,
        List.map_nil, List.length_cons]
      rw [List.range'_succ st.idx cs.length 1]
      simp
    · rw [h3]
      simp [catChar]

lemma catChar_foldl_entries (chars : List BChar) (st : CatState)
    (h : charLineEntries st.prints = st.charMap.map entryOf) :
    charLineEntries (chars.foldl catChar st).prints
      = (chars.foldl catChar st).charMap.map entryOf := by
  induction chars generalizing st with
  | nil => exact h
  | cons c cs ih =>
    rw [List.foldl_cons]
    apply ih
    simp [catChar, charLineEntries, List.filterMap_append, entryOf] at h ⊢
    exact h

lemma displayedChars_cons (verbose : Bool) (svc : BService)
    (rest : List BService) :
    displayedChars verbose (svc :: rest)
      = (if passFilter verbose svc then svc.characteristics else [])
        ++ displayedChars verbose rest := by
  simp only [displayedChars, List.filter_cons]
  split <;> simp

lemma catService_foldl (services : List BService) (verbose : Bool)
    (st : CatState) :
    (services.foldl (catService verbose) st).idx
      = st.idx + (displayedChars verbose services).length ∧
    (services.foldl (catService verbose) st).charMap.map Prod.fst
      = st.charMap.map Prod.fst
        ++ List.range' st.idx (displayedChars verbose services).length ∧
    (services.foldl (catService verbose) st).charMap.map Prod.snd
      = st.charMap.map Prod.snd ++ displayedChars verbose services := by
  induction services generalizing st with
  | nil => simp [displayedChars]
  | cons svc rest ih =>
    rw [List.foldl_cons, displayedChars_cons]
    by_cases hp : passFilter verbose svc
    · have hcat : catService verbose st svc
          = svc.characteristics.foldl catChar
              { st with prints := st.prints ++ [CatPrint.svcHeader svc.uuid] } := by
        simp [catService, hp]
      rw [hcat]
      obtain ⟨h1, h2, h3⟩ := catChar_foldl svc.characteristics
        { st with prints := st.prints ++ [CatPrint.svcHeader svc.uuid] }
      obtain ⟨g1, g2, g3⟩ := ih (svc.characteristics.foldl catChar
        { st with prints := st.prints ++ [CatPrint.svcHeader svc.uuid] })
      refine ⟨?_, ?_, ?_⟩
      · rw [g1, h1]
        simp [hp]
        omega
      · rw [g2, h2, h1]
        simp only [hp, if_true, List.length_append, List.append_assoc]
        rw [range1_append]
      · rw [g3, h3]
        simp [hp]
    · have hcat : catService verbose st svc = st := by
        simp [catService, hp]
      rw [hcat]
      obtain ⟨g1, g2, g3⟩ := ih st
      simp only [hp, Bool.false_eq_true, if_false, List.nil_append]
      exact ⟨g1, g2, g3⟩

lemma catService_foldl_entries (services : List BService) (verbose : Bool)
    (st : CatState)
    (h : charLineEntries st.prints = st.charMap.map entryOf) :
    charLineEntries (services.foldl (catService verbose) st).prints
      = (services.foldl (catService verbose) st).charMap.map entryOf := by
  induction services generalizing st with
  | nil => exact h
  | cons svc rest ih =>
    rw [List.foldl_cons]
    apply ih
    by_cases hp : passFilter verbose svc
    · have hcat : catService verbose st svc
          = svc.characteristics.foldl catChar
              { st with prints := st.prints ++ [CatPrint.svcHeader svc.uuid] } := by
        simp [catService, hp]
      rw [hcat]
      apply catChar_foldl_entries
      simpa [charLineEntries, List.filterMap_append] using h
    · have hcat : catService verbose st svc = st := by
        simp [catService, hp]
      rw [hcat]
      exact h

lemma buildCatalog_fst (services : List BService) (verbose : Bool) :
    (buildCatalog services verbose).charMap.map Prod.fst
      = List.range' 1 (displayedChars verbose services).length := by
  have h := catService_foldl services verbose ⟨1, [], []⟩
  simpa [buildCatalog] using h.2.1

lemma buildCatalog_snd (services : List BService) (verbose : Bool) :
    catalogChars services verbose = displayedChars verbose services := by
  have h := catService_foldl services verbose ⟨1, [], []⟩
  simpa [catalogChars, buildCatalog] using h.2.2

lemma buildCatalog_length (services : List BService) (verbose : Bool) :
    (buildCatalog services verbose).charMap.length
      = (displayedChars verbose services).length := by
  have h := buildCatalog_snd services verbose
  calc (buildCatalog services verbose).charMap.length
      = (catalogChars services verbose).length := by
        simp [catalogChars]
    _ = (displayedChars verbose services).length := by rw [h]

lemma buildCatalog_entries (services : List BService) (verbose : Bool) :
    charLineEntries (buildCatalog services verbose).prints
      = (buildCatalog services verbose).charMap.map entryOf := by
  apply catService_foldl_entries
  simp [charLineEntries]

lemma charMapGet_isSome_iff (services : List BService) (verbose : Bool)
    (k : Int) :
    (charMapGet (buildCatalog services verbose).charMap k).isSome
      ↔ 1 ≤ k ∧ k ≤ ((displayedChars verbose services).length : Int) := by
  have hfst := buildCatalog_fst services verbose
  have hmapSome : ∀ (o : Option (Nat × BChar)),
      (o.map Prod.snd).isSome = o.isSome := by
    intro o
    cases o <;> rfl
  unfold charMapGet
  rw [hmapSome, List.find?_isSome]
  constructor
  · rintro ⟨p, hp, hbeq⟩
    have hk : (p.1 : Int) = k := by exact_mod_cast of_decide_eq_true hbeq
    have hmem : p.1 ∈ (buildCatalog services verbose).charMap.map Prod.fst :=
      List.mem_map_of_mem Prod.fst hp
    rw [hfst] at hmem
    have hrange := List.mem_range'_1.mp hmem
    omega
  · rintro ⟨h1, h2⟩
    have hmem : k.toNat ∈ List.range' 1 (displayedChars verbose services).length := by
      apply List.mem_range'_1.mpr
      omega
    rw [← hfst] at hmem
    obtain ⟨p, hp, hpk⟩ := List.mem_map.mp hmem
    refine ⟨p, hp, ?_⟩
    have : (p.1 : Int) = k := by omega
    simp [this]

/-! ## Dispatcher step lemmas -/

lemma dispatchStep_targets_resolved (cm : List (Nat × BChar)) (orc : DevOracle)
    (line p : String) (ps : List String) (k : Int) (c : BChar)
    (hsplit : pySplit line = "read" :: p :: ps ∨ pySplit line = "write" :: p :: ps)
    (hk : pyInt p = some k) (hc : charMapGet cm k = some c) :
    (devTargets (dispatchStep cm orc line).1).all (fun u => u == c.uuid) = true := by
  rcases hsplit with h | h
  · simp only [dispatchStep, h, hk, hc]
    cases hr : orc.readRes c.uuid <;> simp [devTargets]
  · simp only [dispatchStep, h, hk, hc]
    cases hhd : ps.head? with
    | none => simp [devTargets]
    | some valStr =>
      cases hval : parseWriteValue valStr with
      | none => simp [devTargets, hval]
      | some data =>
        cases hw : orc.writeRes c.uuid data <;> simp [devTargets, hval, hw]

lemma dispatchStep_targets_unresolved (cm : List (Nat × BChar))
    (orc : DevOracle) (line p : String) (ps : List String) (k : Int)
    (hsplit : pySplit line = "read" :: p :: ps ∨ pySplit line = "write" :: p :: ps)
    (hk : pyInt p = some k) (hc : charMapGet cm k = none) :
    devTargets (dispatchStep cm orc line).1 = [] := by
  rcases hsplit with h | h <;> simp [dispatchStep, h, hk, hc, devTargets]

/-! ## Selector lemmas -/

lemma asciiLower_eq_q (a : Char) (h : asciiLower a = 'q') :
    a = 'q' ∨ a = 'Q' := by
  unfold asciiLower at h
  split at h <;> simp_all

lemma asciiLower_eq_s (a : Char) (h : asciiLower a = 's') :
    a = 's' ∨ a = 'S' := by
  unfold asciiLower at h
  split at h <;> simp_all

lemma pyLower_single (s : String) (c : Char)
    (h : pyLower s = String.mk [c]) :
    ∃ a, s.data = [a] ∧ asciiLower a = c := by
  unfold pyLower at h
  have hdata : s.data.map asciiLower = [c] := by
    have := congrArg String.data h
    simpa using this
  cases hs : s.data with
  | nil =>
    rw [hs] at hdata
    simp at hdata
  | cons a t =>
    rw [hs] at hdata
    cases t with
    | nil =>
      simp at hdata
      exact ⟨a, rfl, hdata⟩
    | cons b u => simp at hdata

lemma pyInt_not_keyword (s : String) (i : Int) (hi : pyInt s = some i) :
    pyLower s ≠ "q" ∧ pyLower s ≠ "s" := by
  constructor
  · intro h
    obtain ⟨a, hs, hlow⟩ := pyLower_single s 'q' h
    have hval : s = String.mk [a] := by
      cases s
      simp_all
    rcases asciiLower_eq_q a hlow with ha | ha
    · subst ha
      rw [hval] at hi
      have hq : pyInt (String.mk ['q']) = none := by decide
      rw [hq] at hi
      cases hi
    · subst ha
      rw [hval] at hi
      have hq : pyInt (String.mk ['Q']) = none := by decide
      rw [hq] at hi
      cases hi
  · intro h
    obtain ⟨a, hs, hlow⟩ := pyLower_single s 's' h
    have hval : s = String.mk [a] := by
      cases s
      simp_all
    rcases asciiLower_eq_s a hlow with ha | ha
    · subst ha
      rw [hval] at hi
      have hq : pyInt (String.mk ['s']) = none := by decide
      rw [hq] at hi
      cases hi
    · subst ha
      rw [hval] at hi
      have hq : pyInt (String.mk ['S']) = none := by decide
      rw [hq] at hi
      cases hi

/-! ## Claim theorems -/

/-- C1: for any single connection, the catalog built at connection time maps
the contiguous ordinals `1, …, n` (no gaps, no duplicates) to
characteristics; an ordinal is bound once and never rebound (the key list is
exactly `range' 1 n`); and the `read` and `write` commands resolve an
ordinal through the same unchanging `charMapGet` lookup for the whole
session: every GATT operation a `read`/`write` line with ordinal `k` issues
targets exactly the characteristic the catalog bound to `k`, and no GATT
operation is issued when `k` is unbound. -/
theorem c1_catalog_ordinals (services : List BService) (verbose : Bool) :
    ((buildCatalog services verbose).charMap.map Prod.fst
        = List.range' 1 (buildCatalog services verbose).charMap.length)
    ∧ (∀ k : Int,
        (charMapGet (buildCatalog services verbose).charMap k).isSome
          ↔ 1 ≤ k ∧ k ≤ ((buildCatalog services verbose).charMap.length : Int))
    ∧ (∀ (orc : DevOracle) (line p : String) (ps : List String) (k : Int)
        (c : BChar),
        (pySplit line = "read" :: p :: ps ∨ pySplit line = "write" :: p :: ps) →
        pyInt p = some k →
        charMapGet (buildCatalog services verbose).charMap k = some c →
        (devTargets (dispatchStep (buildCatalog services verbose).charMap orc
            line).1).all (fun u => u == c.uuid) = true)
    ∧ (∀ (orc : DevOracle) (line p : String) (ps : List String) (k : Int),
        (pySplit line = "read" :: p :: ps ∨ pySplit line = "write" :: p :: ps) →
        pyInt p = some k →
        charMapGet (buildCatalog services verbose).charMap k = none →
        devTargets (dispatchStep (buildCatalog services verbose).charMap orc
          line).1 = []) := by
  refine ⟨?_, ?_, ?_, ?_⟩
  · rw [buildCatalog_fst, buildCatalog_length]
  · intro k
    rw [charMapGet_isSome_iff, buildCatalog_length]
  · intro orc line p ps k c hsplit hk hc
    exact dispatchStep_targets_resolved _ orc line p ps k c hsplit hk hc
  · intro orc line p ps k hsplit hk hc
    exact dispatchStep_targets_unresolved _ orc line p ps k hsplit hk hc

/-- Witness for C1 at a concrete connection: the catalog of `svcDemo` binds
ordinals `1` and `2`, and a `read 1` command issues its GATT read against
the characteristic bound to ordinal `1`. -/
theorem c1_catalog_ordinals_witness :
    ((charMapGet (buildCatalog [svcDemo] false).charMap 1).isSome
      ↔ 1 ≤ (1 : Int)
        ∧ (1 : Int) ≤ ((buildCatalog [svcDemo] false).charMap.length : Int))
    ∧ (devTargets (dispatchStep (buildCatalog [svcDemo] false).charMap orcDemo
        "read 1").1).all (fun u => u == charR.uuid) = true :=
  ⟨(c1_catalog_ordinals [svcDemo] false).2.1 1,
   (c1_catalog_ordinals [svcDemo] false).2.2.1 orcDemo "read 1" "1" [] 1 charR
     (Or.inl (by decide)) (by decide) (by decide)⟩

/-- C2 counterexample: with verbose off, a device whose only service has a
single notify-only characteristic gets an empty catalog, although the
traversal encountered that characteristic — so the set of ordinals resolvable
via `read`/`write` is not the set of all characteristics of the device. -/
theorem c2_catalogued_regardless_counterexample :
    (buildCatalog [svcNotifyOnly] false).charMap = []
    ∧ [svcNotifyOnly].flatMap (fun s => s.characteristics) = [charN]
    ∧ catalogChars [svcNotifyOnly] false
        ≠ [svcNotifyOnly].flatMap (fun s => s.characteristics) := by
  refine ⟨by decide, by decide, by decide⟩

/-- C2 amended: during catalog building, an ordinal is assigned and the
characteristic is catalogued exactly for every characteristic of every
service that passes the display filter (at least one `read`/`write`/
`write-without-response` characteristic, or verbose mode); characteristics of
filtered-out services get no ordinal, so the resolvable set equals the
displayed subset — and equals the set of all characteristics only when
verbose mode is on. -/
theorem c2_catalogued_displayed (services : List BService) (verbose : Bool) :
    catalogChars services verbose
      = (services.filter (fun s => passFilter verbose s)).flatMap
          (fun s => s.characteristics)
    ∧ (verbose = true →
        catalogChars services verbose
          = services.flatMap (fun s => s.characteristics)) := by
  constructor
  · exact buildCatalog_snd services verbose
  · intro hv
    rw [buildCatalog_snd]
    subst hv
    simp [displayedChars, passFilter]

/-- Witness for C2 amended: in verbose mode even the notify-only service's
characteristic is catalogued. -/
theorem c2_catalogued_displayed_witness :
    catalogChars [svcNotifyOnly] true
      = [svcNotifyOnly].flatMap (fun s => s.characteristics) :=
  (c2_catalogued_displayed [svcNotifyOnly] true).2 rfl

/-- C10: the display-and-catalogue filter is per-service: the catalogued
characteristics are exactly the characteristics — all of them, including
notify-only ones — of the services with at least one
`read`/`write`/`write-without-response` characteristic (every service in
verbose mode), in traversal order; and the printed per-characteristic lines
carry exactly the catalog's `(ordinal, uuid, properties)` bindings, so a
filtered-out service has nothing printed or catalogued. -/
theorem c10_per_service_filter (services : List BService) (verbose : Bool) :
    catalogChars services verbose
      = (services.filter (fun s =>
          s.characteristics.any (fun c => isRW c) || verbose)).flatMap
          (fun s => s.characteristics)
    ∧ charLineEntries (buildCatalog services verbose).prints
        = (buildCatalog services verbose).charMap.map entryOf := by
  constructor
  · rw [buildCatalog_snd]
    have hfilter : ∀ s : BService,
        passFilter verbose s
          = (s.characteristics.any (fun c => isRW c) || verbose) := by
      intro s
      unfold passFilter
      cases hany : s.characteristics.any (fun c => isRW c) with
      | true =>
        obtain ⟨c, hc, hrw⟩ := List.any_eq_true.mp hany
        have hmem : c ∈ List.filter (fun c => isRW c) s.characteristics :=
          List.mem_filter.mpr ⟨hc, hrw⟩
        cases hf : List.filter (fun c => isRW c) s.characteristics with
        | nil =>
          rw [hf] at hmem
          cases hmem
        | cons a l => simp
      | false =>
        have hnil : List.filter (fun c => isRW c) s.characteristics = [] := by
          rw [List.filter_eq_nil_iff]
          intro c hc
          have hall := List.any_eq_false.mp hany
          simpa using hall c hc
        rw [hnil]
        simp
    simp only [displayedChars, hfilter]
  · exact buildCatalog_entries services verbose

/-- C3 (the code contradicts the claim): dispatching the empty operator line
does not print an error and continue — `cmd, *params = cmd_input.split()`
raises an uncaught `ValueError` (unpacking an empty list), and the
dispatcher loop ends in a crash rather than by quit, disconnect or
cancellation. -/
theorem c3_empty_line_crashes_loop :
    dispatchStep (buildCatalog [svcDemo] false).charMap orcDemo ""
      = ([], StepOutcome.uncaught
          "not enough values to unpack (expected at least 1, got 0)")
    ∧ runDispatch (buildCatalog [svcDemo] false).charMap orcDemo
        [(true, false, "")]
      = ([Effect.prompt], DispFinal.crashed
          "not enough values to unpack (expected at least 1, got 0)") := by
  constructor <;> rfl

/-- C4: at the selection prompt, an integer string `i` with
`0 ≤ i < len(named)` returns exactly `named[i]`; `q` (case-insensitive)
returns `None`; an out-of-range integer or a non-integer input (other than
the `q`/`s` keywords) produces an error message and a retry outcome, and a
retry outcome makes the loop print the error and continue with the next
prompt instead of terminating. -/
theorem c4_selection_grammar (named : List BDevice) (sel : String) :
    (∀ (i : Int) (d : BDevice), pyInt sel = some i → 0 ≤ i →
        named.get? i.toNat = some d → selStep named sel = SelOutcome.device d)
    ∧ (pyLower sel = "q" → selStep named sel = SelOutcome.quitNone)
    ∧ (∀ i : Int, pyInt sel = some i →
        (i < 0 ∨ (named.length : Int) ≤ i) →
        selStep named sel = SelOutcome.retry "Invalid number, please try again.")
    ∧ (pyInt sel = none → pyLower sel ≠ "q" → pyLower sel ≠ "s" →
        selStep named sel
          = SelOutcome.retry "Invalid input, please enter a number.")
    ∧ (∀ (m : String) (rest : List (Bool × String)),
        selStep named sel = SelOutcome.retry m →
        runSelLoop named ((false, sel) :: rest)
          = (SelEffect.prompt :: SelEffect.print m :: (runSelLoop named rest).1,
             (runSelLoop named rest).2)) := by
  refine ⟨?_, ?_, ?_, ?_, ?_⟩
  · intro i d hi h0 hget
    obtain ⟨hq, hs⟩ := pyInt_not_keyword sel i hi
    obtain ⟨hl, he⟩ := List.get?_eq_some.mp hget
    have hcond : 0 ≤ i ∧ i < (named.length : Int) := ⟨h0, by omega⟩
    simp only [selStep, hq, hs, hi, if_false, hcond, dif_pos,
      reduceIte]
    exact congrArg SelOutcome.device he
  · intro h
    simp [selStep, h]
  · intro i hi hout
    obtain ⟨hq, hs⟩ := pyInt_not_keyword sel i hi
    have hcond : ¬(0 ≤ i ∧ i < (named.length : Int)) := by omega
    simp [selStep, hq, hs, hi, hcond]
  · intro hnone hq hs
    simp [selStep, hq, hs, hnone]
  · intro m rest hstep
    simp [runSelLoop, hstep]

/-- Witness for C4: with the two-device list `[devA, devB]`, input `1`
selects `devB` and input `Q` quits. -/
theorem c4_selection_grammar_witness :
    selStep [devA, devB] "1" = SelOutcome.device devB
    ∧ selStep [devA, devB] "Q" = SelOutcome.quitNone :=
  ⟨(c4_selection_grammar [devA, devB] "1").1 1 devB (by decide) (by decide)
     (by decide),
   (c4_selection_grammar [devA, devB] "Q").2.1 (by decide)⟩

lemma hexVal_hexDigit (k : Nat) (h : k < 16) :
    hexVal (hexDigit k) = some k := by
  interval_cases k <;> decide

lemma fromhex_toHexChars (bs : List Nat) (h : ∀ b ∈ bs, b < 256) :
    fromhex (toHexChars bs) = some bs := by
  induction bs with
  | nil => rfl
  | cons b t ih =>
    have hb : b < 256 := h b (List.mem_cons_self b t)
    have hhi : b / 16 < 16 := by omega
    have hlo : b % 16 < 16 := by omega
    have ht : fromhex (toHexChars t) = some t :=
      ih (fun x hx => h x (List.mem_cons_of_mem b hx))
    have hcons : toHexChars (b :: t)
        = hexDigit (b / 16) :: hexDigit (b % 16) :: toHexChars t := by
      simp [toHexChars]
    rw [hcons]
    simp [fromhex, hexVal_hexDigit _ hhi, hexVal_hexDigit _ hlo, ht]
    omega

lemma utf8EncodeList_ascii (l : List Char) (h : ∀ c ∈ l, c.toNat < 128) :
    utf8EncodeList l = l.map Char.toNat := by
  induction l with
  | nil => rfl
  | cons c t ih =>
    have hc : c.toNat < 128 := h c (List.mem_cons_self c t)
    have ht := ih (fun x hx => h x (List.mem_cons_of_mem c hx))
    simp [utf8EncodeList, utf8EncodeChar, hc] at *
    exact ht

/-- C5: a `0x`-prefixed write value token is decoded as hexadecimal bytes
and any other token is encoded as UTF-8 text, and the two encodings agree on
equivalent content: for an ASCII token `s` (itself not `0x`-prefixed), the
token spelling `s` in hex (`0x` followed by two hex digits per byte)
produces exactly the bytes the literal spelling produces — e.g. `0x41` and
`A` both yield the single byte `0x41`. -/
theorem c5_value_encodings (s : String)
    (hascii : ∀ c ∈ s.data, c.toNat < 128)
    (hpre : pyStartswith s "0x" = false) :
    parseWriteValue
        (String.mk ('0' :: 'x' :: toHexChars (s.data.map Char.toNat)))
      = parseWriteValue s
    ∧ parseWriteValue s = some (utf8Encode s) := by
  have h2 : parseWriteValue s = some (utf8Encode s) := by
    simp [parseWriteValue, hpre]
  refine ⟨?_, h2⟩
  rw [h2]
  have hsw : pyStartswith
      (String.mk ('0' :: 'x' :: toHexChars (s.data.map Char.toNat))) "0x"
        = true := by
    simp [pyStartswith, List.isPrefixOf]
  have hbytes : ∀ b ∈ s.data.map Char.toNat, b < 256 := by
    intro b hb
    obtain ⟨c, hc, hcb⟩ := List.mem_map.mp hb
    have := hascii c hc
    omega
  simp only [parseWriteValue, hsw, if_true]
  have hdrop : (String.mk
      ('0' :: 'x' :: toHexChars (s.data.map Char.toNat))).data.drop 2
        = toHexChars (s.data.map Char.toNat) := rfl
  rw [hdrop, fromhex_toHexChars _ hbytes]
  rw [show utf8Encode s = utf8EncodeList s.data from rfl,
    utf8EncodeList_ascii s.data hascii]

/-- Witness for C5: `write … 0x41` and `write … A` produce the identical
single byte `0x41 = 65`. -/
theorem c5_value_encodings_witness :
    parseWriteValue (String.mk ['0', 'x', '4', '1']) = parseWriteValue "A"
    ∧ parseWriteValue "A" = some (utf8Encode "A") :=
  c5_value_encodings "A" (by decide) (by decide)

/-- C6: a `write` command whose value token starts with `0x` but whose
remainder is not valid even-length hexadecimal dispatches to a printed
error, issues no GATT write to the device, and leaves the loop continuing. -/
theorem c6_bad_hex_no_write (cm : List (Nat × BChar)) (orc : DevOracle)
    (line v : String) (ps : List String)
    (hsplit : pySplit line = "write" :: ps)
    (hv : ps.get? 1 = some v)
    (hpre : pyStartswith v "0x" = true)
    (hbad : fromhex (v.data.drop 2) = none) :
    (dispatchStep cm orc line).2 = StepOutcome.cont
    ∧ (dispatchStep cm orc line).1.all (fun e => !(isDevWrite e)) = true
    ∧ (dispatchStep cm orc line).1.any isPrint = true := by
  have hval : parseWriteValue v = none := by
    simp [parseWriteValue, hpre, hbad]
  cases ps with
  | nil => cases hv
  | cons p0 t =>
    cases t with
    | nil => cases hv
    | cons p1 u =>
      have hp1 : p1 = v := by
        simpa using hv
      subst hp1
      simp only [dispatchStep, hsplit]
      cases hk : pyInt p0 with
      | none => simp [isDevWrite, isPrint]
      | some k =>
        cases hc : charMapGet cm k with
        | none => simp [hc, isDevWrite, isPrint]
        | some c => simp [hc, hval, isDevWrite, isPrint]

/-- Witness for C6: `write 2 0xZZ` against a catalog binding ordinal 2
prints an error, writes nothing, continues. -/
theorem c6_bad_hex_no_write_witness :
    (dispatchStep [(2, charR)] orcDemo "write 2 0xZZ").2 = StepOutcome.cont
    ∧ (dispatchStep [(2, charR)] orcDemo "write 2 0xZZ").1.all
        (fun e => !(isDevWrite e)) = true
    ∧ (dispatchStep [(2, charR)] orcDemo "write 2 0xZZ").1.any isPrint = true :=
  c6_bad_hex_no_write [(2, charR)] orcDemo "write 2 0xZZ" "0xZZ"
    ["2", "0xZZ"] (by decide) (by decide) (by decide) (by decide)

/-- C7: the selection list contains no device with a missing or empty name,
and when discovery yields zero named devices the selector prints a message
and returns `None` at once, without ever prompting the operator. -/
theorem c7_named_devices_only (devices : List BDevice) (verbose : Bool)
    (trace : List (Bool × String)) :
    (∀ d ∈ namedDevices devices, d.name ≠ none ∧ d.name ≠ some "")
    ∧ ((namedDevices devices).isEmpty = true →
        selectDevice devices verbose trace
          = ([SelEffect.print "Scanning for devices...",
              SelEffect.print noNamedMsg], SelFinal.retNone)) := by
  constructor
  · intro d hd
    have hmem := List.mem_filter.mp hd
    have htr : nameTruthy d.name = true := hmem.2
    cases hn : d.name with
    | none =>
      rw [hn] at htr
      cases htr
    | some s =>
      rw [hn] at htr
      constructor
      · simp
      · intro hcontra
        have hse : s = "" := by injection hcontra
        subst hse
        simp [nameTruthy] at htr
  · intro hempty
    simp only [selectDevice]
    rw [hempty]
    simp

/-- Witness for C7: a scan returning only an anonymous device and an
empty-named device makes the selector return `None` with just the two
messages and no prompt. -/
theorem c7_named_devices_only_witness :
    selectDevice [devAnon, devEmptyName] false []
      = ([SelEffect.print "Scanning for devices...",
          SelEffect.print noNamedMsg], SelFinal.retNone) :=
  (c7_named_devices_only [devAnon, devEmptyName] false []).2 (by decide)

/-- C8: the shutdown signal is one-shot and idempotent — setting it again is
a no-op, every event mutation the program performs preserves an already-set
flag (no transition ever clears it) — and each of the three loops checks the
flag at its iteration boundary and, once the flag is observed set there,
terminates at once without starting another suspension (it emits no further
prompt, scan, session or select effect). -/
theorem c8_cancellation_oneshot :
    (∀ e : Bool, eventSet (eventSet e) = eventSet e)
    ∧ (∀ f ∈ appEventOps, ∀ e : Bool, e = true → f e = true)
    ∧ (∀ (named : List BDevice) (sel : String) (rest : List (Bool × String)),
        runSelLoop named ((true, sel) :: rest) = ([], SelFinal.retNone))
    ∧ (∀ (cm : List (Nat × BChar)) (orc : DevOracle) (conn : Bool)
        (line : String) (rest : List (Bool × Bool × String)),
        runDispatch cm orc ((conn, true, line) :: rest) = ([], DispFinal.ended))
    ∧ (∀ (r : MainRound) (rest : List MainRound), r.flagAtTop = true →
        mainLoop (r :: rest) = ([], MainFinal.done)) := by
  refine ⟨?_, ?_, ?_, ?_, ?_⟩
  · intro e
    rfl
  · intro f hf e he
    subst he
    simp only [appEventOps, List.mem_cons, List.not_mem_nil, or_false] at hf
    rcases hf with h | h <;> subst h <;> rfl
  · intro named sel rest
    simp [runSelLoop]
  · intro cm orc conn line rest
    simp [runDispatch]
  · intro r rest hr
    simp [mainLoop, hr]

/-- Witness for C8: at a set flag, the selection loop and the dispatcher
loop both end at once with no effect, and re-setting the set event changes
nothing. -/
theorem c8_cancellation_oneshot_witness :
    runSelLoop [devA] [(true, "0")] = ([], SelFinal.retNone)
    ∧ runDispatch [(1, charR)] orcDemo [(true, true, "read 1")]
        = ([], DispFinal.ended)
    ∧ gracefulShutdownSetsEvent true = true :=
  ⟨c8_cancellation_oneshot.2.2.1 [devA] "0" [],
   c8_cancellation_oneshot.2.2.2.1 [(1, charR)] orcDemo true "read 1" [],
   c8_cancellation_oneshot.2.1 gracefulShutdownSetsEvent
     (List.mem_cons_self _ _) true rfl⟩

/-- C9: the battery tool's `--name` resolution returns the address of the
first discovered device whose name is a case-sensitive exact match, and when
no discovered device matches, the tool prints `"Device not found"` and
performs no connection attempt at all. -/
theorem c9_battery_name_resolution (devices : List BDevice) (nm : String)
    (orc : Nat → RBIter) (cmds : List String) (hnm : nm ≠ "") :
    ((rbScan nm devices).2
        = (devices.find? (fun d => d.name == some nm)).map
            (fun d => d.address))
    ∧ ((∀ d ∈ devices, d.name ≠ some nm) →
        rbMain devices none (some nm) orc cmds
          = [RBEffect.print ("Scanning for device named: " ++ nm),
             RBEffect.print "Device not found"]
        ∧ (rbMain devices none (some nm) orc cmds).all
            (fun e => !(isConnect e)) = true) := by
  have hscan : ∀ ds : List BDevice,
      (rbScan nm ds).2
        = (ds.find? (fun d => d.name == some nm)).map (fun d => d.address) := by
    intro ds
    induction ds with
    | nil => rfl
    | cons d t ih =>
      by_cases hd : d.name = some nm
      · simp [rbScan, hd, List.find?_cons]
      · have hbeq : (d.name == some nm) = false := by
          simpa using hd
        simp [rbScan, hd, List.find?_cons, hbeq, ih]
  refine ⟨hscan devices, ?_⟩
  intro hnone
  have hmiss : ∀ ds : List BDevice, (∀ d ∈ ds, d.name ≠ some nm) →
      rbScan nm ds = ([RBEffect.print "Device not found"], none) := by
    intro ds
    induction ds with
    | nil => intro _; rfl
    | cons d t ih =>
      intro hall
      have hd : d.name ≠ some nm := hall d (List.mem_cons_self d t)
      have ht := ih (fun x hx => hall x (List.mem_cons_of_mem d hx))
      simp [rbScan, hd, ht]
  have hres := hmiss devices hnone
  have htru : nameTruthy (some nm) = true := by
    simp [nameTruthy, hnm]
  constructor
  · simp [rbMain, nameTruthy, hnm, getAddressFromName, hres]
  · simp [rbMain, nameTruthy, hnm, getAddressFromName, hres, isConnect]

/-- Witness for C9: scanning a list holding only `devA` (named `Thermo`) for
the name `Lock` finds nothing, prints the message, and never connects. -/
theorem c9_battery_name_resolution_witness :
    rbMain [devA] none (some "Lock") rbIterDemo []
      = [RBEffect.print ("Scanning for device named: " ++ "Lock"),
         RBEffect.print "Device not found"]
    ∧ (rbMain [devA] none (some "Lock") rbIterDemo []).all
        (fun e => !(isConnect e)) = true :=
  (c9_battery_name_resolution [devA] "Lock" rbIterDemo [] (by decide)).2
    (by decide)

end BleGatt
